import Mathlib

set_option maxHeartbeats 1000000

/-!
Shallow embedding of the leanvox-python request-execution core:
credential resolution (_auth.py), the error classifier (errors.py),
the retry/backoff state machine (_http.py) and the generation
orchestrator's validation and routing (client.py).
-/

namespace Leanvox

/-- Structured values as decoded from JSON bodies (model of the Python
dict/list/str/number values flowing through the client). -/
inductive JVal where
  | str (s : String)
  | num (q : ℚ)
  | boolean (b : Bool)
  | null
  | obj (fields : List (String × JVal))

/-- Lookup in a decoded JSON object, as Python dict.get(k) (first binding wins). -/
def dictGet (d : List (String × JVal)) (k : String) : Option JVal :=
  (d.find? (fun p => p.1 == k)).map (fun p => p.2)

/-- Error classes of errors.py, as a kind tag. `generic` is the base LeanvoxError
used for statuses missing from _ERROR_MAP. -/
inductive ErrKind where
  | invalidRequest
  | authentication
  | insufficientBalance
  | notFound
  | rateLimit
  | server
  | generic
deriving DecidableEq, Repr

/-- Embeds the _ERROR_MAP dict of errors.py together with its LeanvoxError default. -/
def errorMap (status : Nat) : ErrKind :=
  if status = 400 then .invalidRequest
  else if status = 401 then .authentication
  else if status = 402 then .insufficientBalance
  else if status = 404 then .notFound
  else if status = 429 then .rateLimit
  else if status = 500 then .server
  else .generic

/-- Typed error as constructed by errors._raise_for_status: kind (the class),
message and code exactly as extracted from the body, the HTTP status, the raw
body, and the kind-specific extra fields (their class defaults are 0). -/
structure LeanvoxErr where
  kind : ErrKind
  message : JVal
  code : JVal
  status_code : Nat
  body : List (String × JVal)
  balance_cents : JVal
  retry_after : JVal

/-- Outcome of a call to errors._raise_for_status: `raised e` when it raises the
typed error e, `ret` when it returns without raising (status below 400), and
`crash` for the AttributeError Python would raise when body["error"] is present
but is not a dict (error_data.get then fails). -/
inductive RaiseOutcome where
  | raised (e : LeanvoxErr)
  | ret
  | crash

/-- Embeds errors._raise_for_status (errors.py lines 76-91). -/
def raiseForStatus (status : Nat) (body : List (String × JVal)) : RaiseOutcome :=
  if status < 400 then .ret
  else
    match (dictGet body "error").getD (.obj body) with
    | .obj errData =>
      let message := (dictGet errData "message").getD (.str ("API error " ++ toString status))
      let code := (dictGet errData "code").getD (.str "unknown")
      let kind := errorMap status
      .raised
        { kind := kind
          message := message
          code := code
          status_code := status
          body := body
          balance_cents :=
            if kind = .insufficientBalance then (dictGet errData "balance_cents").getD (.num 0)
            else .num 0
          retry_after :=
            if kind = .rateLimit then (dictGet errData "retry_after").getD (.num 0)
            else .num 0 }
    | _ => .crash

/-- Projection used to state facts about a raised error's message. -/
def raisedMessage : RaiseOutcome → Option JVal
  | .raised e => some e.message
  | _ => none

/-- Projection used to state facts about a raised error's code. -/
def raisedCode : RaiseOutcome → Option JVal
  | .raised e => some e.code
  | _ => none

/-- Embeds the _RETRY_STATUS_CODES set of _http.py. -/
def RETRY_STATUS_CODES : List Nat := [429, 500, 502, 503, 504]

/-- Embeds the _BACKOFF_BASE list of _http.py. -/
def BACKOFF_BASE : List ℚ := [1, 2, 4]

/-- Numeric value of a list of decimal digits. -/
def digitsVal (l : List Char) : Nat :=
  l.foldl (fun a c => a * 10 + (c.toNat - 48)) 0

/-- Helper for pyFloat?: parses an unsigned decimal literal, digits with an
optional dot and fractional digits, at least one digit overall. -/
def pyFloatCore (cs : List Char) : Option ℚ :=
  match cs.span (fun c => c != '.') with
  | (intPart, []) =>
    if intPart ≠ [] ∧ intPart.all Char.isDigit then some ((digitsVal intPart : ℚ)) else none
  | (intPart, _ :: fracPart) =>
    if (intPart ≠ [] ∨ fracPart ≠ []) ∧ intPart.all Char.isDigit ∧ fracPart.all Char.isDigit then
      some ((digitsVal intPart : ℚ) + (digitsVal fracPart : ℚ) / ((10 : ℚ) ^ fracPart.length))
    else
      none

/-- Models the Python builtin float() on strings, restricted to optional-sign
decimal literals ("3.5", "-1", "007", ".5"); none models the ValueError float()
raises on anything else. Exponent and infinity forms are outside the model. -/
def pyFloat? (s : String) : Option ℚ :=
  match s.data with
  | '-' :: rest => (pyFloatCore rest).map (fun q => -q)
  | '+' :: rest => pyFloatCore rest
  | rest => pyFloatCore rest

/-- An HTTP response as the executor consumes it: status code, the result of
resp.json() (none when decoding raises), whether resp.content is nonempty,
resp.text, and resp.headers.get("Retry-After"). -/
structure HttpResponse where
  status : Nat
  json? : Option (List (String × JVal))
  content : Bool
  text : String
  retryAfter : Option String

/-- Embeds _http._get_backoff (lines 249-258): a truthy Retry-After header that
float() can parse is returned as-is, otherwise the fixed schedule indexed by
min(attempt, len(_BACKOFF_BASE) - 1). -/
def getBackoff (attempt : Nat) (r : HttpResponse) : ℚ :=
  let base := BACKOFF_BASE.getD (min attempt (BACKOFF_BASE.length - 1)) 0
  match r.retryAfter with
  | some ra =>
    if ra ≠ "" then
      match pyFloat? ra with
      | some v => v
      | none => base
    else base
  | none => base

/-- Embeds the error-body parse of _http.py (lines 83-86): resp.json(), falling
back on any decode failure to a dict wrapping resp.text; a total function, the
except branch swallows every parse exception. -/
def parseErrorBody (json? : Option (List (String × JVal))) (text : String) :
    List (String × JVal) :=
  match json? with
  | some b => b
  | none => [("error", .obj [("message", .str text)])]

/-- Outcome the transport hands one loop iteration: a raised connect/timeout
exception, or a received response. -/
inductive AttemptOutcome where
  | transportErr (msg : String)
  | response (r : HttpResponse)

/-- Result of one full run of HTTPClient.request: a parsed body returned, a typed
error raised, the connection_error LeanvoxError after transport-failure
exhaustion, the AttributeError crash path of _raise_for_status, the
JSONDecodeError that resp.json() raises uncaught on a success response, or the
ValueError that time.sleep raises uncaught on a negative backoff wait. -/
inductive ReqResult where
  | ok (body : List (String × JVal))
  | typedErr (e : LeanvoxErr)
  | connectionErr (msg : String)
  | pyCrash
  | jsonDecodeErr
  | valueErr

/-- Observable trace of one run: its result, the number of transport attempts
made, and the sleeps performed in order. -/
structure RunTrace where
  result : ReqResult
  attempts : Nat
  sleeps : List ℚ

/-- Embeds the for-loop body of HTTPClient.request (_http.py lines 63-112).
`attempt` is the current 0-based index and `fuel` the remaining loop iterations
(maxRetries + 1 - attempt at the top entry). `outcomes a` is what the transport
does on the a-th send. The call time.sleep(wait) at line 95 raises ValueError
for a negative wait (reachable through a parseable negative Retry-After), and
the except clause catches only transport errors, so the run then ends with
valueErr after the current attempt and the failed sleep is not performed. Fuel
0 is the fall-off-the-loop `return {}` of line 112, unreachable from the top
entry since every continue requires attempt < maxRetries. -/
def requestFrom (maxRetries : Nat) (outcomes : Nat → AttemptOutcome) :
    Nat → Nat → RunTrace
  | _, 0 => ⟨.ok [], 0, []⟩
  | attempt, fuel + 1 =>
    match outcomes attempt with
    | .transportErr msg =>
      if attempt < maxRetries then
        let rest := requestFrom maxRetries outcomes (attempt + 1) fuel
        ⟨rest.result, rest.attempts + 1,
          BACKOFF_BASE.getD (min attempt (BACKOFF_BASE.length - 1)) 0 :: rest.sleeps⟩
      else
        ⟨.connectionErr ("Connection failed after " ++ toString (maxRetries + 1) ++
          " attempts: " ++ msg), 1, []⟩
    | .response r =>
      if r.status < 400 then
        ⟨(if r.content then
            match r.json? with
            | some b => .ok b
            | none => .jsonDecodeErr
          else .ok []), 1, []⟩
      else
        let body := parseErrorBody r.json? r.text
        let fall93 : RunTrace :=
          if r.status ∈ RETRY_STATUS_CODES ∧ attempt < maxRetries then
            let wait := getBackoff attempt r
            if wait < 0 then
              ⟨.valueErr, 1, []⟩
            else
              let rest := requestFrom maxRetries outcomes (attempt + 1) fuel
              ⟨rest.result, rest.attempts + 1, wait :: rest.sleeps⟩
          else
            match raiseForStatus r.status body with
            | .raised e => ⟨.typedErr e, 1, []⟩
            | .crash => ⟨.pyCrash, 1, []⟩
            | .ret =>
              let rest := requestFrom maxRetries outcomes (attempt + 1) fuel
              ⟨rest.result, rest.attempts + 1, rest.sleeps⟩
        if r.status < 500 ∧ r.status ≠ 429 then
          match raiseForStatus r.status body with
          | .raised e => ⟨.typedErr e, 1, []⟩
          | .crash => ⟨.pyCrash, 1, []⟩
          | .ret => fall93
        else fall93

/-- Embeds HTTPClient.request: the loop entered at attempt 0 with
maxRetries + 1 iterations (range(self._max_retries + 1)). -/
def HTTPClient.request (maxRetries : Nat) (outcomes : Nat → AttemptOutcome) : RunTrace :=
  requestFrom maxRetries outcomes 0 (maxRetries + 1)

/-- Embeds the for-loop body of AsyncHTTPClient.request (_http.py lines
180-226), transcribed from the async source on its own. Unlike time.sleep,
asyncio.sleep accepts any delay and returns immediately for a non-positive one,
so a negative backoff wait does not abort the async loop: the requested delay
is recorded in the trace and the retry proceeds. -/
def asyncRequestFrom (maxRetries : Nat) (outcomes : Nat → AttemptOutcome) :
    Nat → Nat → RunTrace
  | _, 0 => ⟨.ok [], 0, []⟩
  | attempt, fuel + 1 =>
    match outcomes attempt with
    | .transportErr msg =>
      if attempt < maxRetries then
        let rest := asyncRequestFrom maxRetries outcomes (attempt + 1) fuel
        ⟨rest.result, rest.attempts + 1,
          BACKOFF_BASE.getD (min attempt (BACKOFF_BASE.length - 1)) 0 :: rest.sleeps⟩
      else
        ⟨.connectionErr ("Connection failed after " ++ toString (maxRetries + 1) ++
          " attempts: " ++ msg), 1, []⟩
    | .response r =>
      if r.status < 400 then
        ⟨(if r.content then
            match r.json? with
            | some b => .ok b
            | none => .jsonDecodeErr
          else .ok []), 1, []⟩
      else
        let body := parseErrorBody r.json? r.text
        let fall93 : RunTrace :=
          if r.status ∈ RETRY_STATUS_CODES ∧ attempt < maxRetries then
            let rest := asyncRequestFrom maxRetries outcomes (attempt + 1) fuel
            ⟨rest.result, rest.attempts + 1, getBackoff attempt r :: rest.sleeps⟩
          else
            match raiseForStatus r.status body with
            | .raised e => ⟨.typedErr e, 1, []⟩
            | .crash => ⟨.pyCrash, 1, []⟩
            | .ret =>
              let rest := asyncRequestFrom maxRetries outcomes (attempt + 1) fuel
              ⟨rest.result, rest.attempts + 1, rest.sleeps⟩
        if r.status < 500 ∧ r.status ≠ 429 then
          match raiseForStatus r.status body with
          | .raised e => ⟨.typedErr e, 1, []⟩
          | .crash => ⟨.pyCrash, 1, []⟩
          | .ret => fall93
        else fall93

/-- Embeds AsyncHTTPClient.request: the loop entered at attempt 0 with
maxRetries + 1 iterations. -/
def AsyncHTTPClient.request (maxRetries : Nat) (outcomes : Nat → AttemptOutcome) : RunTrace :=
  asyncRequestFrom maxRetries outcomes 0 (maxRetries + 1)

/-- Outcome of the single transport open of a streaming call. -/
inductive StreamOpenOutcome where
  | transportErr (msg : String)
  | opened (r : HttpResponse)

/-- Observable trace of a stream open: its outcome as handed to the caller, the
number of transport open attempts made, and the sleeps performed. -/
structure StreamTrace where
  result : StreamOpenOutcome
  attempts : Nat
  sleeps : List ℚ

/-- Embeds HTTPClient.stream (_http.py lines 114-129): a single open delegated
to the underlying transport, its outcome handed to the caller unchanged; no
loop, no sleep and no status handling appear in the source. maxRetries is a
field of the client but the method never consults it. -/
def HTTPClient.stream (maxRetries : Nat) (opens : Nat → StreamOpenOutcome) : StreamTrace :=
  ⟨opens 0, 1, []⟩

/-- Outcome of _auth.resolve_api_key: a resolved key, the AuthenticationError
raised by _validate_prefix (empty key or unrecognized start), or absent (None). -/
inductive ResolveOutcome where
  | key (k : String)
  | invalidKey (k : String)
  | absent
deriving DecidableEq, Repr

/-- Embeds _auth._validate_prefix as a predicate: true exactly when it raises
nothing, i.e. the key is nonempty and starts with lv_live_ or lv_test_. -/
def validKeyFormat (k : String) : Bool :=
  k ≠ "" && (("lv_live_".isPrefixOf k) || ("lv_test_".isPrefixOf k))

/-- Embeds _auth.resolve_api_key (lines 32-54). `explicit` is the constructor
argument (None or a string), `env` the value of os.environ.get (none when the
variable is unset), `file` the value _read_config_file returns (none covers a
missing file, an unreadable or unparseable file, and a file without the key,
all of which that helper swallows into None). -/
def resolve_api_key (explicit env file : Option String) : ResolveOutcome :=
  match explicit with
  | some k => if validKeyFormat k then .key k else .invalidKey k
  | none =>
    let fileStep : ResolveOutcome :=
      match file with
      | some c => if c ≠ "" then (if validKeyFormat c then .key c else .invalidKey c) else .absent
      | none => .absent
    match env with
    | some e => if e ≠ "" then (if validKeyFormat e then .key e else .invalidKey e) else fileStep
    | none => fileStep

/-- One of the six InvalidRequestError raises of client._validate_generate_params,
each carrying the data its message interpolates; all six carry code
"invalid_request" and status 400 in the source. -/
inductive GenError where
  | emptyText
  | tooLong (n : Nat)
  | badModel (m : String)
  | badSpeed (s : ℚ)
  | exaggProOnly
  | badExagg (e : ℚ)
deriving DecidableEq, Repr

/-- Embeds client._validate_generate_params (lines 355-387): the six checks in
source order, first failure wins, none on success. -/
def validateGenerateParams (text model : String) (speed exagg : ℚ) : Option GenError :=
  if text = "" then some .emptyText
  else if text.length > 10000 then some (.tooLong text.length)
  else if ¬(model = "standard" ∨ model = "pro") then some (.badModel model)
  else if ¬(1/2 ≤ speed ∧ speed ≤ 2) then some (.badSpeed speed)
  else if model = "standard" ∧ exagg ≠ 1/2 then some .exaggProOnly
  else if ¬(0 ≤ exagg ∧ exagg ≤ 1) then some (.badExagg exagg)
  else none

/-- The validation checklist as the spec sentence lists it: an ordered list of
(failure condition, error) pairs, to be scanned for the first failure. -/
def specValidationChecks (text model : String) (speed exagg : ℚ) :
    List (Bool × GenError) :=
  [ (decide (text = ""), GenError.emptyText),
    (decide (text.length > 10000), GenError.tooLong text.length),
    (decide (¬(model = "standard" ∨ model = "pro")), GenError.badModel model),
    (decide (¬(1/2 ≤ speed ∧ speed ≤ 2)), GenError.badSpeed speed),
    (decide (model = "standard" ∧ exagg ≠ 1/2), GenError.exaggProOnly),
    (decide (¬(0 ≤ exagg ∧ exagg ≤ 1)), GenError.badExagg exagg) ]

/-- First failing check of an ordered checklist, none when every check passes. -/
def firstFailure : List (Bool × GenError) → Option GenError
  | [] => none
  | (b, e) :: rest => if b then some e else firstFailure rest

/-- First failing check of the spec's ordered validation list, none when every
check passes (spec-side formulation, compared against validateGenerateParams). -/
def specFirstFailure (text model : String) (speed exagg : ℚ) : Option GenError :=
  firstFailure (specValidationChecks text model speed exagg)

/-- Embeds client._build_generate_body (lines 390-404): voice only when truthy,
exaggeration only for the pro model. -/
def buildGenerateBody (text model voice language format : String) (speed exagg : ℚ) :
    List (String × JVal) :=
  [("text", .str text), ("model", .str model), ("language", .str language),
   ("format", .str format), ("speed", .num speed)]
  ++ (if voice ≠ "" then [("voice", .str voice)] else [])
  ++ (if model = "pro" then [("exaggeration", .num exagg)] else [])

/-- The Job dataclass of types.py, at its declared field types. -/
structure Job where
  id : String
  status : String
  estimated_seconds : ℚ
  audio_url : String
  error : String
deriving DecidableEq, Repr

/-- The GenerateResult dataclass of types.py, at its declared field types
(the _http_client handle is not data and is omitted). -/
structure GenerateResult where
  audio_url : String
  model : String
  voice : String
  characters : Nat
  cost_cents : ℚ
deriving DecidableEq, Repr

/-- Embeds the poll loop of client.generate's auto-async branch (lines 108-110):
`fetch i` is the Job parsed from the i-th GET /v1/jobs/\x7bid\x7d poll; returns
the first terminal job together with the number of polls made, or none when
`fuel` polls did not reach a terminal status (the Python while-loop would still
be running then). -/
def pollFrom (fetch : Nat → Job) : Nat → Nat → Job → Option (Job × Nat)
  | i, fuel, j =>
    if j.status = "completed" ∨ j.status = "failed" then some (j, i)
    else
      match fuel with
      | 0 => none
      | f + 1 => pollFrom fetch (i + 1) f (fetch i)

/-- One network call the orchestrator issues, with the JSON body for posts. -/
inductive NetCall where
  | post (path : String) (body : List (String × JVal))
  | get (path : String)

/-- Outcome of Leanvox.generate: a result, a validation InvalidRequestError, the
job_failed InvalidRequestError of the auto-async branch, or a still-running
poll loop after the supplied fuel. -/
inductive GenOutcome where
  | result (r : GenerateResult)
  | invalid (e : GenError)
  | jobFailed (message : String)
  | nonterm
deriving DecidableEq, Repr

/-- Embeds Leanvox.generate (client.py lines 86-131) at the level where each
issued network call succeeds and returns parsed data: `submitted` is the Job
parsed from the generate-async submit response, `fetch i` the Job from the i-th
poll, `syncData` the parsed body of the synchronous generate response, `fuel`
bounds the polls considered. Result fields are read at their declared dataclass
types. Returns the outcome and the ordered network calls made. -/
def Leanvox.generate (threshold : Nat) (text model voice language format : String)
    (speed exagg : ℚ) (submitted : Job) (fetch : Nat → Job) (fuel : Nat)
    (syncData : List (String × JVal)) : GenOutcome × List NetCall :=
  match validateGenerateParams text model speed exagg with
  | some e => (.invalid e, [])
  | none =>
    if text.length > threshold then
      let body := buildGenerateBody text model voice language format speed exagg
      let submitCall := NetCall.post "/v1/tts/generate-async" body
      match pollFrom fetch 0 fuel submitted with
      | none =>
        (.nonterm, submitCall :: (List.range fuel).map (fun _ => .get "/v1/jobs/\x7bid\x7d"))
      | some (j, n) =>
        let calls := submitCall :: (List.range n).map (fun _ => .get "/v1/jobs/\x7bid\x7d")
        if j.status = "failed" then
          (.jobFailed (if j.error ≠ "" then j.error else "Async generation failed"), calls)
        else
          (.result ⟨j.audio_url, model, voice, text.length, 0⟩, calls)
    else
      let body := buildGenerateBody text model voice language format speed exagg
      let audio := match dictGet syncData "audio_url" with | some (.str s) => s | _ => ""
      let rmodel := match dictGet syncData "model" with | some (.str s) => s | _ => model
      let rvoice := match dictGet syncData "voice" with | some (.str s) => s | _ => voice
      let rchars := match dictGet syncData "characters" with | some (.num q) => q.num.toNat | _ => 0
      let rcost := match dictGet syncData "cost_cents" with | some (.num q) => q | _ => 0
      (.result ⟨audio, rmodel, rvoice, rchars, rcost⟩, [NetCall.post "/v1/tts/generate" body])

/-- Models Python str.lower character-wise; it agrees with str.lower on ASCII
strings, the domain of the format names the client handles. -/
def strLower (s : String) : String := ⟨s.data.map Char.toLower⟩

/-- Start of a Leanvox.stream call: the StreamingFormatError with its message,
code and status, a validation InvalidRequestError, or the stream open with the
body it sends. -/
inductive StreamStart where
  | formatErr (message : String) (code : String) (status : Nat)
  | invalid (e : GenError)
  | opens (body : List (String × JVal))

/-- Embeds Leanvox.stream (client.py lines 133-157) up to the network open: the
MP3 format guard on format.lower(), then parameter validation, then the stream
open with the body (format forced to mp3); Char-wise lowercasing models Python
str.lower, with which it agrees on ASCII. Returns the start outcome and the
network calls made up to that point. -/
def Leanvox.stream (text model voice language : String) (speed exagg : ℚ)
    (format : String) : StreamStart × List NetCall :=
  if strLower format ≠ "mp3" then
    (.formatErr ("Streaming only supports MP3 format. Got format='" ++ format ++
      "'. Use generate() for other formats.") "streaming_format_error" 400, [])
  else
    match validateGenerateParams text model speed exagg with
    | some e => (.invalid e, [])
    | none =>
      let body := buildGenerateBody text model voice language "mp3" speed exagg
      (.opens body, [NetCall.post "/v1/tts/stream" body])

/-- A decoded error body the spec's HTTP contract allows: either decoding failed
(none) or the decoded dict's "error" key, when present, holds an object; this
is exactly what _raise_for_status consumes without an AttributeError. -/
def wellFormedBody (json? : Option (List (String × JVal))) : Bool :=
  match json? with
  | none => true
  | some d =>
    match dictGet d "error" with
    | some (.obj _) => true
    | some _ => false
    | none => true

/-- Concrete 500 response with a well-formed error body, used by witnesses. -/
def resp500 : HttpResponse :=
  { status := 500
    json? := some [("error", .obj [("message", .str "boom"), ("code", .str "server_error")])]
    content := true
    text := ""
    retryAfter := none }

/-- Concrete 404 response with a well-formed error body, used by witnesses. -/
def resp404 : HttpResponse :=
  { status := 404
    json? := some [("error", .obj [("message", .str "nope"), ("code", .str "not_found")])]
    content := true
    text := ""
    retryAfter := none }

/-- Concrete 429 response carrying Retry-After -1, from the C2 counterexample. -/
def resp429neg : HttpResponse :=
  { status := 429, json? := none, content := true, text := "slow", retryAfter := some "-1" }

/-- Concrete 500 response carrying a parseable negative Retry-After, the input
on which the sync and async executors diverge. -/
def resp500neg : HttpResponse :=
  { status := 500, json? := none, content := true, text := "boom", retryAfter := some "-1" }

/-- Concrete 429 response carrying Retry-After 3.5, used by witnesses. -/
def resp429hdr : HttpResponse :=
  { status := 429, json? := none, content := true, text := "slow", retryAfter := some "3.5" }

/-- Concrete completed job used by the C3 counterexample and witness. -/
def jobDone : Job :=
  { id := "job_1", status := "completed", estimated_seconds := 0,
    audio_url := "https://cdn.leanvox.com/audio/done.mp3", error := "" }

/-- For a status of at least 400 and a body the API contract allows,
_raise_for_status raises the typed error of the status map, carrying the status. -/
theorem raiseForStatus_wf (status : Nat) (json? : Option (List (String × JVal)))
    (text : String) (h4 : 400 ≤ status) (hwf : wellFormedBody json? = true) :
    ∃ e, raiseForStatus status (parseErrorBody json? text) = .raised e ∧
      e.kind = errorMap status ∧ e.status_code = status := by
  have hlt : ¬ status < 400 := by omega
  cases json? with
  | none =>
    unfold raiseForStatus parseErrorBody
    rw [if_neg hlt]
    exact ⟨_, rfl, rfl, rfl⟩
  | some d =>
    unfold raiseForStatus parseErrorBody
    rw [if_neg hlt]
    match hk : dictGet d "error" with
    | none =>
      exact ⟨_, rfl, rfl, rfl⟩
    | some (.obj errData) =>
      exact ⟨_, rfl, rfl, rfl⟩
    | some (.str s) => simp [wellFormedBody, hk] at hwf
    | some (.num q) => simp [wellFormedBody, hk] at hwf
    | some (.boolean b) => simp [wellFormedBody, hk] at hwf
    | some .null => simp [wellFormedBody, hk] at hwf

/-- Schedule value of _BACKOFF_BASE at an attempt index, in the spec's phrasing. -/
theorem backoff_base_at (attempt : Nat) :
    BACKOFF_BASE.getD (min attempt (BACKOFF_BASE.length - 1)) 0
      = if attempt = 0 then 1 else if attempt = 1 then 2 else 4 := by
  match attempt with
  | 0 => rfl
  | 1 => rfl
  | n + 2 =>
    have h2 : min (n + 2) (BACKOFF_BASE.length - 1) = 2 := by
      simp [BACKOFF_BASE]
    rw [h2, if_neg (by omega), if_neg (by omega)]
    rfl

/-- Schedule values of _BACKOFF_BASE are non-negative. -/
theorem schedule_nonneg (attempt : Nat) :
    0 ≤ BACKOFF_BASE.getD (min attempt (BACKOFF_BASE.length - 1)) 0 := by
  rw [backoff_base_at]
  split_ifs <;> norm_num

/-- With no Retry-After header the backoff is the schedule value. -/
theorem getBackoff_no_header (attempt : Nat) (r : HttpResponse)
    (h : r.retryAfter = none) :
    getBackoff attempt r = BACKOFF_BASE.getD (min attempt (BACKOFF_BASE.length - 1)) 0 := by
  simp only [getBackoff, h]

/-- With maxRetries = 0 every run makes exactly one transport attempt and
performs no sleep, whatever the first outcome is. -/
theorem request_zero_retries (outcomes : Nat → AttemptOutcome) :
    (HTTPClient.request 0 outcomes).attempts = 1 ∧
    (HTTPClient.request 0 outcomes).sleeps = [] := by
  cases houtcome : outcomes 0 with
  | transportErr msg =>
    constructor <;> simp [HTTPClient.request, requestFrom, houtcome]
  | response r =>
    by_cases h4 : r.status < 400
    · constructor <;> simp [HTTPClient.request, requestFrom, houtcome, h4]
    · cases hrs : raiseForStatus r.status (parseErrorBody r.json? r.text) <;>
        by_cases hc : r.status < 500 ∧ r.status ≠ 429 <;>
        constructor <;>
        simp [HTTPClient.request, requestFrom, houtcome, h4, hc, hrs]

/-- Auxiliary induction for the all-500 run with non-negative backoff waits:
from any attempt index with matching fuel, the rest of the loop makes exactly
`fuel` further attempts and ends raising the Server error. -/
theorem req500_aux (N : Nat) (outcomes : Nat → AttemptOutcome)
    (h : ∀ a, a ≤ N → ∃ r, outcomes a = .response r ∧ r.status = 500 ∧
      wellFormedBody r.json? = true ∧ 0 ≤ getBackoff a r) :
    ∀ fuel a, a + fuel = N + 1 → 1 ≤ fuel →
      (requestFrom N outcomes a fuel).attempts = fuel ∧
      ∃ e, (requestFrom N outcomes a fuel).result = .typedErr e ∧
        e.kind = .server ∧ e.status_code = 500 := by
  intro fuel
  induction fuel with
  | zero => intro a _ h1; omega
  | succ f ih =>
    intro a ha _
    obtain ⟨r, hr, hst, hwf, hnn⟩ := h a (by omega)
    have hw : ¬ getBackoff a r < 0 := not_lt.mpr hnn
    by_cases hlt : a < N
    · have hf : 1 ≤ f := by omega
      have ha2 : a + 1 + f = N + 1 := by omega
      obtain ⟨ihA, e, ihE, ihK, ihS⟩ := ih (a + 1) ha2 hf
      refine ⟨?_, e, ?_, ihK, ihS⟩ <;>
        simp [requestFrom, hr, hst, RETRY_STATUS_CODES, hlt, hw, ihA, ihE]
    · have haN : a = N := by omega
      have hfz : f = 0 := by omega
      subst haN hfz
      obtain ⟨e, he, hek, hes⟩ :=
        raiseForStatus_wf 500 r.json? r.text (by omega) hwf
      have hek2 : e.kind = .server := by
        rw [hek]; rfl
      refine ⟨?_, e, ?_, hek2, hes⟩ <;>
        simp [requestFrom, hr, hst, RETRY_STATUS_CODES, he]

/-- C1 counterexample: maxRetries = 1 with every attempt answered by an HTTP 500
carrying Retry-After -1: the executor makes one attempt and dies in time.sleep's
uncaught ValueError instead of the claimed 1 + 1 attempts ending in the Server
error. -/
theorem server_error_retry_cex :
    (HTTPClient.request 1 (fun _ => .response resp500neg)).attempts = 1 ∧
    (HTTPClient.request 1 (fun _ => .response resp500neg)).result = .valueErr ∧
    (1 : Nat) ≠ 1 + 1 := by
  refine ⟨?_, ?_, by decide⟩ <;> rfl

/-- C1 amended: with maxRetries = N and every attempt answered by an HTTP 500
response whose body has the shape the API contract allows and whose backoff
wait is non-negative (no parseable negative Retry-After), HTTPClient.request
makes exactly N + 1 transport attempts and then raises the Server typed error;
a parseable negative Retry-After with retries remaining instead ends the call
after that attempt with time.sleep's uncaught ValueError. maxRetries = 0 means
exactly one attempt and no sleep regardless of the outcome of that attempt. -/
theorem server_error_retry_amended (N : Nat) (outcomes : Nat → AttemptOutcome)
    (h : ∀ a, a ≤ N → ∃ r, outcomes a = .response r ∧ r.status = 500 ∧
      wellFormedBody r.json? = true ∧ 0 ≤ getBackoff a r) :
    ((HTTPClient.request N outcomes).attempts = N + 1 ∧
     ∃ e, (HTTPClient.request N outcomes).result = .typedErr e ∧
       e.kind = .server ∧ e.status_code = 500) ∧
    ∀ outcomes2 : Nat → AttemptOutcome,
      (HTTPClient.request 0 outcomes2).attempts = 1 ∧
      (HTTPClient.request 0 outcomes2).sleeps = [] :=
  ⟨req500_aux N outcomes h (N + 1) 0 (by omega) (by omega),
   fun outcomes2 => request_zero_retries outcomes2⟩

/-- Witness for C1 amended at N = 1 with a concrete header-free 500 response on
every attempt. -/
theorem server_error_retry_amended_witness :
    (HTTPClient.request 1 (fun _ => .response resp500)).attempts = 1 + 1 ∧
    ∃ e, (HTTPClient.request 1 (fun _ => .response resp500)).result = .typedErr e ∧
      e.kind = .server ∧ e.status_code = 500 :=
  (server_error_retry_amended 1 (fun _ => .response resp500)
    (fun a _ => ⟨resp500, rfl, rfl, rfl, by
      rw [getBackoff_no_header a resp500 rfl]
      exact schedule_nonneg a⟩)).1

/-- C5: a first response with a 4xx status other than 429 ends the call at once,
for every maxRetries: exactly one transport attempt, no sleep, and the typed
error of the status map raised immediately. -/
theorem no_retry_on_4xx (N s : Nat) (r : HttpResponse) (outcomes : Nat → AttemptOutcome)
    (h0 : outcomes 0 = .response r) (hs : r.status = s)
    (h4 : 400 ≤ s) (h5 : s < 500) (h429 : s ≠ 429)
    (hwf : wellFormedBody r.json? = true) :
    (HTTPClient.request N outcomes).attempts = 1 ∧
    (HTTPClient.request N outcomes).sleeps = [] ∧
    ∃ e, (HTTPClient.request N outcomes).result = .typedErr e ∧
      e.kind = errorMap s ∧ e.status_code = s := by
  obtain ⟨e, he, hek, hes⟩ := raiseForStatus_wf s r.json? r.text h4 hwf
  have hnlt : ¬ s < 400 := by omega
  refine ⟨?_, ?_, e, ?_, hek, hes⟩ <;>
    simp [HTTPClient.request, requestFrom, h0, hs, hnlt, h5, h429, he]

/-- Witness for C5 at maxRetries = 2 with a concrete 404 response. -/
theorem no_retry_on_4xx_witness :
    (HTTPClient.request 2 (fun _ => .response resp404)).attempts = 1 ∧
    (HTTPClient.request 2 (fun _ => .response resp404)).sleeps = [] ∧
    ∃ e, (HTTPClient.request 2 (fun _ => .response resp404)).result = .typedErr e ∧
      e.kind = errorMap 404 ∧ e.status_code = 404 :=
  no_retry_on_4xx 2 404 resp404 (fun _ => .response resp404) rfl rfl
    (by omega) (by omega) (by omega) (by rfl)

/-- C2 counterexample: a Retry-After header of "-1" is parseable as a number but
not as a non-negative one, so the claim prescribes the schedule value 1.0 at
attempt 0; _get_backoff instead returns the header value -1 unfiltered. -/
theorem backoff_retry_after_cex :
    getBackoff 0 resp429neg = -1 ∧ ((-1 : ℚ) ≠ 1) :=
  ⟨by decide, by decide⟩

/-- C2 amended: a truthy Retry-After header that float() parses is returned
as-is, sign included (negative values are not filtered out); only when the
header is absent or unparseable does the wait come from the fixed schedule,
1.0 at attempt 0, 2.0 at attempt 1, 4.0 from attempt 2 on. -/
theorem backoff_retry_after_amended (attempt : Nat) (r : HttpResponse) :
    (∀ s q, r.retryAfter = some s → pyFloat? s = some q → getBackoff attempt r = q) ∧
    ((r.retryAfter = none ∨ ∃ s, r.retryAfter = some s ∧ pyFloat? s = none) →
      getBackoff attempt r = if attempt = 0 then 1 else if attempt = 1 then 2 else 4) := by
  constructor
  · intro s q hs hq
    have hse : s ≠ "" := by
      intro h
      subst h
      rw [show pyFloat? "" = none from rfl] at hq
      cases hq
    simp only [getBackoff, hs]
    rw [if_pos hse, hq]
  · intro hcase
    rcases hcase with hnone | ⟨s, hs, hq⟩
    · simp only [getBackoff, hnone]
      rw [backoff_base_at]
    · simp only [getBackoff, hs]
      by_cases hse : s = ""
      · subst hse
        rw [if_neg (by simp), backoff_base_at]
      · rw [if_pos hse, hq, backoff_base_at]

/-- Witness for C2 amended: header 3.5 overrides to exactly 3.5 at attempt 0,
and with no header attempt 1 sleeps the schedule's 2.0. -/
theorem backoff_retry_after_witness :
    getBackoff 0 resp429hdr = 7/2 ∧ getBackoff 1 resp500 = 2 := by
  have h35 : pyFloat? "3.5" = some (7/2) := by
    have h1 : pyFloat? "3.5"
        = some (((3 : ℕ) : ℚ) + ((5 : ℕ) : ℚ) / (10 : ℚ) ^ (1 : ℕ)) := rfl
    rw [h1]
    norm_num
  constructor
  · exact (backoff_retry_after_amended 0 resp429hdr).1 "3.5" (7/2) rfl h35
  · rw [(backoff_retry_after_amended 1 resp500).2 (Or.inl rfl)]
    norm_num

/-- C6: credential precedence explicit > env > file > absent; an explicit key,
the empty string included, is prefix-validated and wins whatever env and file
hold; else a present non-empty env value is validated and used; else a
non-empty config-file key; else absent, without raising. -/
theorem credential_precedence (explicit env file : Option String) :
    (∀ k, explicit = some k →
      resolve_api_key explicit env file
        = (if validKeyFormat k then .key k else .invalidKey k)) ∧
    (explicit = none → ∀ e, env = some e → e ≠ "" →
      resolve_api_key explicit env file
        = (if validKeyFormat e then .key e else .invalidKey e)) ∧
    (explicit = none → (env = none ∨ env = some "") → ∀ c, file = some c → c ≠ "" →
      resolve_api_key explicit env file
        = (if validKeyFormat c then .key c else .invalidKey c)) ∧
    (explicit = none → (env = none ∨ env = some "") → (file = none ∨ file = some "") →
      resolve_api_key explicit env file = .absent) := by
  refine ⟨?_, ?_, ?_, ?_⟩
  · intro k hk
    subst hk
    rfl
  · intro hx e he hne
    subst hx he
    simp only [resolve_api_key]
    rw [if_pos hne]
  · intro hx henv c hc hne
    subst hx hc
    rcases henv with he | he <;> subst he <;> simp [resolve_api_key, hne]
  · intro hx henv hfile
    subst hx
    rcases henv with he | he <;> subst he <;>
      rcases hfile with hf | hf <;> subst hf <;> rfl

/-- Witness for C6: an explicit bad-format key still wins over valid env and
file keys (and is rejected), and an all-absent chain resolves to absent. -/
theorem credential_precedence_witness :
    resolve_api_key (some "bad") (some "lv_live_a") (some "lv_test_b")
      = .invalidKey "bad" ∧
    resolve_api_key none none none = .absent := by
  constructor
  · rw [(credential_precedence (some "bad") (some "lv_live_a") (some "lv_test_b")).1
      "bad" rfl]
    decide
  · exact (credential_precedence none none none).2.2.2 rfl (Or.inl rfl) (Or.inl rfl)

/-- C7 counterexample: a 500 response whose body cannot be parsed and whose raw
text is "oops" yields a typed error whose message is that raw text, not the
claimed synthesized "API error 500" (the code does default to "unknown"). -/
theorem error_body_fallback_cex :
    raisedMessage (raiseForStatus 500 (parseErrorBody none "oops"))
        = some (.str "oops") ∧
    raisedCode (raiseForStatus 500 (parseErrorBody none "oops"))
        = some (.str "unknown") ∧
    ("oops" : String) ≠ "API error 500" :=
  ⟨rfl, rfl, by decide⟩

/-- C7 amended: when the error body is absent or unparseable the executor wraps
the raw response text: the synthesized dict maps "error" to a dict mapping
"message" to the raw text, so the raised typed error of the status map carries
the raw text (empty for an absent body) as its message and "unknown" as its
code; "API error <status>" arises only when a parsed body lacks a message key.
The parse step is a total function and never throws. -/
theorem error_body_fallback_amended (status : Nat) (text : String) (h4 : 400 ≤ status) :
    parseErrorBody none text = [("error", .obj [("message", .str text)])] ∧
    ∃ e, raiseForStatus status (parseErrorBody none text) = .raised e ∧
      e.kind = errorMap status ∧ e.status_code = status ∧
      e.message = .str text ∧ e.code = .str "unknown" := by
  refine ⟨rfl, ?_⟩
  have hlt : ¬ status < 400 := by omega
  unfold raiseForStatus parseErrorBody
  rw [if_neg hlt]
  exact ⟨_, rfl, rfl, rfl, rfl, rfl⟩

/-- Witness for C7 amended at status 404 with raw text "boom". -/
theorem error_body_fallback_witness :
    parseErrorBody none "boom" = [("error", .obj [("message", .str "boom")])] ∧
    ∃ e, raiseForStatus 404 (parseErrorBody none "boom") = .raised e ∧
      e.kind = errorMap 404 ∧ e.status_code = 404 ∧
      e.message = .str "boom" ∧ e.code = .str "unknown" :=
  error_body_fallback_amended 404 "boom" (by omega)

/-- C8 counterexample: with maxRetries = 2 and a transport that raises on the
stream open before any bytes are delivered, HTTPClient.stream still makes only
one attempt, not the maxRetries + 1 = 3 a connect-phase retry would give. -/
theorem stream_connect_retry_cex :
    (HTTPClient.stream 2 (fun _ => .transportErr "connection refused")).attempts = 1 ∧
    (1 : Nat) ≠ 2 + 1 :=
  ⟨rfl, by decide⟩

/-- C8 amended: the streaming variant performs no retries in any phase, the
initial connect included: exactly one transport open, no sleeps, and whatever
the transport produced (a live response or a connect failure) is handed to the
caller unchanged; mid-stream failures thus propagate immediately. -/
theorem stream_no_retry (maxRetries : Nat) (opens : Nat → StreamOpenOutcome) :
    (HTTPClient.stream maxRetries opens).attempts = 1 ∧
    (HTTPClient.stream maxRetries opens).sleeps = [] ∧
    (HTTPClient.stream maxRetries opens).result = opens 0 :=
  ⟨rfl, rfl, rfl⟩

/-- All six validation checks passing makes the validator return none. -/
theorem validateGenerateParams_none (text model : String) (speed exagg : ℚ)
    (h1 : text ≠ "") (h2 : text.length ≤ 10000)
    (h3 : model = "standard" ∨ model = "pro")
    (h4 : 1/2 ≤ speed) (h5 : speed ≤ 2)
    (h6 : ¬(model = "standard" ∧ exagg ≠ 1/2))
    (h7 : 0 ≤ exagg) (h8 : exagg ≤ 1) :
    validateGenerateParams text model speed exagg = none := by
  unfold validateGenerateParams
  rw [if_neg h1, if_neg (by omega), if_neg (not_not_intro h3),
    if_neg (not_not_intro ⟨h4, h5⟩), if_neg h6, if_neg (not_not_intro ⟨h7, h8⟩)]

/-- Valid pro-model parameters used by the C3 counterexample and witness. -/
theorem validate_hello_pro : validateGenerateParams "hello!" "pro" 1 (1/2) = none :=
  validateGenerateParams_none "hello!" "pro" 1 (1/2) (by decide) (by decide)
    (Or.inr rfl) (by norm_num) (by norm_num)
    (by rintro ⟨h, -⟩; exact absurd h (by decide)) (by norm_num) (by norm_num)

/-- Valid standard-model parameters used by the C10 witness. -/
theorem validate_hi_standard : validateGenerateParams "hi" "standard" 1 (1/2) = none :=
  validateGenerateParams_none "hi" "standard" 1 (1/2) (by decide) (by decide)
    (Or.inl rfl) (by norm_num) (by norm_num)
    (by rintro ⟨-, h⟩; exact h rfl) (by norm_num) (by norm_num)

/-- C3 counterexample: with threshold 0 and the six-character text "hello!",
the auto-promoted path on an already-completed job returns characters = 6, the
text length, where the claim requires characters = 0. -/
theorem autoasync_zero_accounting_cex :
    (Leanvox.generate 0 "hello!" "pro" "" "en" "mp3" 1 (1/2) jobDone
        (fun _ => jobDone) 0 []).1
      = .result ⟨"https://cdn.leanvox.com/audio/done.mp3", "pro", "", 6, 0⟩ ∧
    (6 : Nat) ≠ 0 := by
  refine ⟨?_, by decide⟩
  simp only [Leanvox.generate, validate_hello_pro]
  rfl

/-- C3 amended: when generate auto-promotes (text longer than the threshold)
and the poll loop ends on a completed job j, the result is built from j's audio
URL with cost_cents zeroed but characters set to the client-side text length,
not zero. -/
theorem autoasync_completed_result (threshold : Nat)
    (text model voice language format : String) (speed exagg : ℚ)
    (submitted : Job) (fetch : Nat → Job) (fuel : Nat)
    (syncData : List (String × JVal)) (j : Job) (n : Nat)
    (hv : validateGenerateParams text model speed exagg = none)
    (hlen : text.length > threshold)
    (hpoll : pollFrom fetch 0 fuel submitted = some (j, n))
    (hdone : j.status = "completed") :
    (Leanvox.generate threshold text model voice language format speed exagg
        submitted fetch fuel syncData).1
      = .result ⟨j.audio_url, model, voice, text.length, 0⟩ := by
  simp only [Leanvox.generate, hv, hpoll]
  rw [if_pos hlen]
  rw [if_neg (by rw [hdone]; decide)]

/-- Witness for C3 amended at threshold 0, text "hello!", and a completed job. -/
theorem autoasync_completed_result_witness :
    (Leanvox.generate 0 "hello!" "pro" "" "en" "mp3" 1 (1/2) jobDone
        (fun _ => jobDone) 0 []).1
      = .result ⟨jobDone.audio_url, "pro", "", "hello!".length, 0⟩ :=
  autoasync_completed_result 0 "hello!" "pro" "" "en" "mp3" 1 (1/2) jobDone
    (fun _ => jobDone) 0 [] jobDone 0 validate_hello_pro (by decide) rfl rfl

/-- C4: the validator equals the spec's ordered first-failure scan over exactly
the six checks; a validation failure makes generate return that InvalidRequest
error with no network call issued; and for model standard with exaggeration
outside 0..1 (other checks passing) the failure raised is step 5's pro-only
error, not step 6's range error. -/
theorem validation_order (text model : String) (speed exagg : ℚ) :
    validateGenerateParams text model speed exagg
      = specFirstFailure text model speed exagg ∧
    (∀ e threshold voice language format submitted fetch fuel syncData,
      validateGenerateParams text model speed exagg = some e →
      Leanvox.generate threshold text model voice language format speed exagg
          submitted fetch fuel syncData = (.invalid e, [])) ∧
    (model = "standard" → ¬(0 ≤ exagg ∧ exagg ≤ 1) →
      text ≠ "" → text.length ≤ 10000 → 1/2 ≤ speed → speed ≤ 2 →
      validateGenerateParams text model speed exagg = some .exaggProOnly) := by
  refine ⟨?_, ?_, ?_⟩
  · simp only [validateGenerateParams, specFirstFailure, specValidationChecks,
      firstFailure, decide_eq_true_eq]
  · intro e threshold voice language format submitted fetch fuel syncData hv
    simp only [Leanvox.generate, hv]
  · intro hm hrange hne hlen hsp1 hsp2
    have hx : exagg ≠ 1/2 := by
      intro h
      subst h
      exact hrange ⟨by norm_num, by norm_num⟩
    unfold validateGenerateParams
    rw [if_neg hne, if_neg (by omega), if_neg (not_not_intro (Or.inl hm)),
      if_neg (not_not_intro ⟨hsp1, hsp2⟩), if_pos ⟨hm, hx⟩]

/-- Witness for C4 at text "hi", model standard, speed 1, exaggeration 1.5. -/
theorem validation_order_witness :
    validateGenerateParams "hi" "standard" 1 (3/2)
      = specFirstFailure "hi" "standard" 1 (3/2) ∧
    validateGenerateParams "hi" "standard" 1 (3/2) = some .exaggProOnly ∧
    Leanvox.generate 5000 "hi" "standard" "" "en" "mp3" 1 (3/2) jobDone
        (fun _ => jobDone) 0 [] = (.invalid .exaggProOnly, []) := by
  have h := validation_order "hi" "standard" 1 (3/2)
  have h3 := h.2.2 rfl (by rintro ⟨-, hb⟩; norm_num at hb) (by decide) (by decide)
    (by norm_num) (by norm_num)
  exact ⟨h.1, h3,
    h.2.1 .exaggProOnly 5000 "" "en" "mp3" jobDone (fun _ => jobDone) 0 [] h3⟩

/-- C9 counterexample: on a 500 response carrying Retry-After -1 with retries
remaining (maxRetries = 1), the blocking executor makes one attempt and dies in
time.sleep's uncaught ValueError, while the non-blocking executor's
asyncio.sleep returns immediately and it retries: two attempts and the Server
typed error. The executors are not identical. -/
theorem sync_async_equiv_cex :
    (HTTPClient.request 1 (fun _ => .response resp500neg)).attempts = 1 ∧
    (HTTPClient.request 1 (fun _ => .response resp500neg)).result = .valueErr ∧
    (AsyncHTTPClient.request 1 (fun _ => .response resp500neg)).attempts = 2 ∧
    (1 : Nat) ≠ 2 := by
  refine ⟨?_, ?_, ?_, by decide⟩ <;> rfl

/-- C9 amended: whenever every computed backoff wait is non-negative, the
blocking and the non-blocking executor behave identically: same attempts, same
sleeps in the same order, same outcome, for every maxRetries and transport
behavior. They diverge exactly at a parseable negative Retry-After with retries
remaining, where time.sleep raises an uncaught ValueError (the sync call dies
after that attempt) while asyncio.sleep returns immediately (the async call
keeps retrying). -/
theorem sync_async_equiv_amended (maxRetries : Nat) (outcomes : Nat → AttemptOutcome)
    (h : ∀ a r, outcomes a = .response r → 0 ≤ getBackoff a r) :
    HTTPClient.request maxRetries outcomes = AsyncHTTPClient.request maxRetries outcomes := by
  have aux : ∀ fuel a, requestFrom maxRetries outcomes a fuel
      = asyncRequestFrom maxRetries outcomes a fuel := by
    intro fuel
    induction fuel with
    | zero => intro a; rfl
    | succ f ih =>
      intro a
      cases houtcome : outcomes a with
      | transportErr msg =>
        simp only [requestFrom, asyncRequestFrom, houtcome, ih]
      | response r =>
        have hw : ¬ getBackoff a r < 0 := not_lt.mpr (h a r houtcome)
        simp only [requestFrom, asyncRequestFrom, houtcome, if_neg hw, ih]
  exact aux (maxRetries + 1) 0

/-- Witness for C9 amended: a persistent header-free 500 run with maxRetries = 2
drives both executors through the same retries to the same trace. -/
theorem sync_async_equiv_witness :
    HTTPClient.request 2 (fun _ => .response resp500)
      = AsyncHTTPClient.request 2 (fun _ => .response resp500) :=
  sync_async_equiv_amended 2 (fun _ => .response resp500) (fun a r hr => by
    cases hr
    rw [getBackoff_no_header a resp500 rfl]
    exact schedule_nonneg a)

/-- C10: the stream format guard lowercases the format and passes exactly when
the result is mp3, in which case validation and the stream open proceed; any
other format makes stream raise StreamingFormatError with code
streaming_format_error and status 400 at once, before validation runs and with
no network call. -/
theorem stream_format_guard (text model voice language format : String)
    (speed exagg : ℚ) :
    (strLower format = "mp3" →
      Leanvox.stream text model voice language speed exagg format
        = (match validateGenerateParams text model speed exagg with
           | some e => (.invalid e, [])
           | none =>
             (.opens (buildGenerateBody text model voice language "mp3" speed exagg),
              [NetCall.post "/v1/tts/stream"
                (buildGenerateBody text model voice language "mp3" speed exagg)]))) ∧
    (strLower format ≠ "mp3" →
      Leanvox.stream text model voice language speed exagg format
        = (.formatErr ("Streaming only supports MP3 format. Got format='" ++ format ++
            "'. Use generate() for other formats.") "streaming_format_error" 400, [])) := by
  constructor
  · intro h
    simp only [Leanvox.stream]
    rw [if_neg (not_not_intro h)]
  · intro h
    simp only [Leanvox.stream]
    rw [if_pos h]

/-- Witness for C10: format "WAV" fails the guard before validation even though
the empty text would also fail validation; format "MP3" passes the guard
case-insensitively and proceeds to the stream open. -/
theorem stream_format_guard_witness :
    Leanvox.stream "" "standard" "" "en" 1 (1/2) "WAV"
      = (.formatErr ("Streaming only supports MP3 format. Got format='" ++ "WAV" ++
          "'. Use generate() for other formats.") "streaming_format_error" 400, []) ∧
    Leanvox.stream "hi" "standard" "" "en" 1 (1/2) "MP3"
      = (.opens (buildGenerateBody "hi" "standard" "" "en" "mp3" 1 (1/2)),
         [NetCall.post "/v1/tts/stream"
           (buildGenerateBody "hi" "standard" "" "en" "mp3" 1 (1/2))]) := by
  constructor
  · exact (stream_format_guard "" "standard" "" "en" "WAV" 1 (1/2)).2 (by decide)
  · rw [(stream_format_guard "hi" "standard" "" "en" "MP3" 1 (1/2)).1 (by decide),
      validate_hi_standard]

end Leanvox
